import Mathlib

/-!
Shallow embedding of the "Savor Save" Order & Expense Ledger Core.

Monetary amounts are embedded as rationals (ℚ), matching the exact
DECIMAL arithmetic of the SQL functions; times are embedded as integers
(epoch milliseconds for the client code, abstract instants for SQL
`now()`).  Statuses are the literal strings the source compares against.
-/

namespace SavorSave

/-! ## Split calculator (§4.4): `splitExpenseEqually` / `split_expense_equally` -/

/-- One entry of the per-person share array produced by the split
calculator (the `split_shares` JSONB array / the `SplitShare[]` value). -/
structure SplitShare where
  person : ℕ
  amount : ℚ
deriving DecidableEq, Repr

/-- Embedding of `splitExpenseEqually` (ExpenseTrackerSimple.tsx) /
`split_expense_equally` (SQL): `share = FLOOR(total / people * 100) / 100`,
`remainder = total - share * people`; person 1 gets `share + remainder`,
everyone else gets `share`. -/
def splitExpenseEqually (totalAmount : ℚ) (people : ℕ) : List SplitShare :=
  let share : ℚ := (Rat.floor (totalAmount / (people : ℚ) * 100) : ℚ) / 100
  let remainder : ℚ := totalAmount - share * (people : ℚ)
  (List.range people).map (fun i =>
    { person := i + 1, amount := if i = 0 then share + remainder else share })

/-! ## Order state machine (§4.1): `update_order_status` and friends -/

/-- The slice of a `public.orders` row that `update_order_status` touches
or that the tracked claims mention. -/
structure OrderRow where
  status : String
  placedAt : Option ℤ
  confirmedAt : Option ℤ
  preparingAt : Option ℤ
  readyAt : Option ℤ
  pickedUpAt : Option ℤ
  onTheWayAt : Option ℤ
  deliveredAt : Option ℤ
  cancelledAt : Option ℤ
  updatedAt : ℤ
  rating : Option ℕ
deriving DecidableEq, Repr

/-- One `public.order_status_history` row (append-only log). -/
structure HistoryEntry where
  orderId : ℕ
  status : String
  message : Option String
  createdAt : ℤ
deriving DecidableEq, Repr

/-- The two tables `update_order_status` reads and writes.  `orders` is an
association list from order id to row. -/
structure OrdersDb where
  orders : List (ℕ × OrderRow)
  history : List HistoryEntry
deriving DecidableEq, Repr

/-- Read the row with the given id from the `orders` table (the first
match, the way `WHERE id = p_order_id` addresses at most one row of a
primary-keyed table). -/
def lookupOrder : List (ℕ × OrderRow) → ℕ → Option OrderRow
  | [], _ => none
  | p :: l, oid => if p.1 = oid then some p.2 else lookupOrder l oid

/-- Database errors surfaced by the embedded SQL functions. -/
inductive SqlError
  | foreignKeyViolation
deriving DecidableEq, Repr

/-- The row-level effect of the `UPDATE public.orders` statement inside
`update_order_status`: sets `status`, refreshes the one timestamp column
whose name matches the new status (each `CASE WHEN p_new_status = '…'
THEN now() ELSE <old> END` overwrites on a match, with no not-already-set
guard), and bumps `updated_at`.  `nearby` and `failed` have no timestamp
column. -/
def applyStatusTimestamps (r : OrderRow) (s : String) (t : ℤ) : OrderRow :=
  { r with
    status := s
    confirmedAt := if s = "confirmed" then some t else r.confirmedAt
    preparingAt := if s = "preparing" then some t else r.preparingAt
    readyAt := if s = "ready" then some t else r.readyAt
    pickedUpAt := if s = "picked_up" then some t else r.pickedUpAt
    onTheWayAt := if s = "on_the_way" then some t else r.onTheWayAt
    deliveredAt := if s = "delivered" then some t else r.deliveredAt
    cancelledAt := if s = "cancelled" then some t else r.cancelledAt
    updatedAt := t }

/-- The `orders` table after the `UPDATE … WHERE id = p_order_id`. -/
def updatedOrders (orders : List (ℕ × OrderRow)) (oid : ℕ) (s : String)
    (t : ℤ) : List (ℕ × OrderRow) :=
  orders.map (fun p => if p.1 = oid then (p.1, applyStatusTimestamps p.2 s t) else p)

/-- Observer: the single timestamp column corresponding to a status —
the column the matching `CASE WHEN p_new_status = '…'` branch writes.
`nearby` and `failed` have no timestamp column. -/
def statusTimestamp (r : OrderRow) (s : String) : Option ℤ :=
  if s = "confirmed" then r.confirmedAt
  else if s = "preparing" then r.preparingAt
  else if s = "ready" then r.readyAt
  else if s = "picked_up" then r.pickedUpAt
  else if s = "on_the_way" then r.onTheWayAt
  else if s = "delivered" then r.deliveredAt
  else if s = "cancelled" then r.cancelledAt
  else none

/-- The seven statuses that own a timestamp column in `public.orders`. -/
def timestampedStatuses : List String :=
  ["confirmed", "preparing", "ready", "picked_up", "on_the_way",
   "delivered", "cancelled"]

/-- Embedding of the SQL function `update_order_status(p_order_id,
p_new_status, p_message, p_location)`.  After the (unconditional) UPDATE,
the function inserts one `order_status_history` row and returns `FOUND`.
In PL/pgSQL `FOUND` reflects the most recent statement — the history
INSERT — so a completed call always returns `true`; and because
`order_status_history.order_id REFERENCES orders(id)`, the INSERT raises
a foreign-key violation (aborting the call with no rows written) when no
order with the given id exists. -/
def update_order_status (db : OrdersDb) (oid : ℕ) (newStatus : String)
    (message : Option String) (t : ℤ) : Except SqlError (OrdersDb × Bool) :=
  if db.orders.any (fun p => p.1 = oid) then
    .ok ({ orders := updatedOrders db.orders oid newStatus t,
           history := db.history ++
             [{ orderId := oid, status := newStatus, message := message, createdAt := t }] },
         true)
  else
    .error .foreignKeyViolation

/-- Run one transition the way the client consumes it: keep the updated
database on success, keep the old one if the call raised. -/
def stepDb (db : OrdersDb) (oid : ℕ) (s : String) (t : ℤ) : OrdersDb :=
  match update_order_status db oid s none t with
  | .ok (db₂, _) => db₂
  | .error _ => db

/-! ## Budget monitor (§4.3): `get_budget_usage` -/

/-- The slice of a `public.food_orders` row that the budget computation
and the period totals read: amount, date, status, transaction type. -/
structure FoodOrderRow where
  amount : ℚ
  orderDate : ℤ
  status : String
  transactionType : String
deriving DecidableEq, Repr

/-- The `v_spent` query of `get_budget_usage`: sum of `amount` over rows
with `status = 'completed' AND transaction_type = 'expense'` whose
`order_date` lies on or after the period start (`CURRENT_DATE` /
`DATE_TRUNC('week'|'month', CURRENT_DATE)`). -/
def periodSpent (rows : List FoodOrderRow) (periodStart : ℤ) : ℚ :=
  ((rows.filter (fun r => r.status == "completed" && r.transactionType == "expense"
      && decide (periodStart ≤ r.orderDate))).map (fun r => r.amount)).sum

/-- PostgreSQL `ROUND(x, 2)` on NUMERIC for the non-negative values that
occur here: half away from zero at two decimal places. -/
def pgRound2 (q : ℚ) : ℚ := (Rat.floor (q * 100 + 1/2) : ℚ) / 100

/-- The row `get_budget_usage` returns.  `percentage_used` and
`should_alert` are `Option`s because `NULLIF(v_budget, 0)` makes both
SQL expressions NULL when the budget limit is zero. -/
structure BudgetUsage where
  totalSpent : ℚ
  budgetLimit : ℚ
  percentageUsed : Option ℚ
  remaining : ℚ
  alertThreshold : ℚ
  shouldAlert : Option Bool
deriving DecidableEq, Repr

/-- Embedding of the SQL function `get_budget_usage` after budget-row
resolution (the caller's `v_budget`/`v_threshold`, defaults applied).
`percentage_used = ROUND(v_spent / NULLIF(v_budget,0) * 100, 2)` while
`should_alert` compares the UNROUNDED `v_spent / NULLIF(v_budget,0) * 100`
against `v_threshold`. -/
def get_budget_usage (rows : List FoodOrderRow) (periodStart : ℤ)
    (budgetLimit threshold : ℚ) : BudgetUsage :=
  let spent := periodSpent rows periodStart
  { totalSpent := spent
    budgetLimit := budgetLimit
    percentageUsed :=
      if budgetLimit = 0 then none else some (pgRound2 (spent / budgetLimit * 100))
    remaining := budgetLimit - spent
    alertThreshold := threshold
    shouldAlert :=
      if budgetLimit = 0 then none
      else some (decide (threshold ≤ spent / budgetLimit * 100)) }

/-! ## Tracking-state derivation (§4.1): `getOrderTrackingState` -/

/-- The linear 8-status progression `statusOrder` from
`getOrderTrackingState`. -/
def statusOrder : List String :=
  ["placed", "confirmed", "preparing", "ready", "picked_up",
   "on_the_way", "nearby", "delivered"]

/-- JavaScript `Array.prototype.indexOf`: position of the first match,
`-1` when absent. -/
def jsIndexOf (l : List String) (s : String) : ℤ :=
  match l.findIdx? (fun x => x == s) with
  | some i => (i : ℤ)
  | none => -1

/-- `Math.ceil` on an exact rational, via the computable floor. -/
def jsMathCeil (q : ℚ) : ℤ := -(Rat.floor (-q))

/-- The slice of the client `Order` that `getOrderTrackingState` reads.
`estimatedDeliveryTime` is an epoch-millisecond instant. -/
structure TrackedOrder where
  status : String
  rating : Option ℕ
  estimatedDeliveryTime : Option ℤ
deriving DecidableEq, Repr

/-- The `OrderTrackingState` value `getOrderTrackingState` builds
(delivery-person location omitted: it is copied through untouched). -/
structure OrderTrackingState where
  currentStatus : String
  statusHistory : List HistoryEntry
  estimatedTime : Option ℤ
  isDelivered : Bool
  isCancelled : Bool
  canCancel : Bool
  canRate : Bool
  progressPercentage : ℚ
deriving DecidableEq, Repr

/-- Embedding of `getOrderTrackingState(order)`.  `now` is `Date.now()`
in milliseconds.  JS `!order.rating` is truthy for both an absent rating
and a zero rating, hence the `getD 0`. -/
def getOrderTrackingState (order : TrackedOrder) (orderHistory : List HistoryEntry)
    (now : ℤ) : OrderTrackingState :=
  let currentIndex : ℤ := jsIndexOf statusOrder order.status
  let progressPercentage : ℚ := ((currentIndex : ℚ) + 1) / (statusOrder.length : ℚ) * 100
  let canCancel : Bool := order.status == "placed" || order.status == "confirmed"
  let canRate : Bool := order.status == "delivered" && (order.rating.getD 0 == 0)
  let estimatedTime : Option ℤ :=
    match order.estimatedDeliveryTime with
    | some edt =>
        if order.status ≠ "delivered"
        then some (max 0 (jsMathCeil (((edt - now : ℤ) : ℚ) / 60000)))
        else none
    | none => none
  { currentStatus := order.status
    statusHistory := orderHistory
    estimatedTime := estimatedTime
    isDelivered := order.status == "delivered"
    isCancelled := order.status == "cancelled"
    canCancel := canCancel
    canRate := canRate
    progressPercentage := progressPercentage }

/-! ## Expense cancellation (§4.2): `cancel_expense` -/

/-- The slice of a `public.food_orders` row that `cancel_expense`
touches. -/
structure ExpenseRowState where
  amount : ℚ
  status : String
  cancelledAt : Option ℤ
  cancelledReason : Option String
  updatedAt : ℤ
deriving DecidableEq, Repr

/-- Embedding of the SQL function `cancel_expense(p_expense_id, p_reason)`
restricted to the addressed row: `UPDATE … SET status='cancelled',
cancelled_at=NOW(), cancelled_reason=p_reason, updated_at=NOW() WHERE id =
p_expense_id AND status IN ('pending','completed'); RETURN FOUND`. -/
def cancel_expense (row : ExpenseRowState) (reason : Option String) (t : ℤ) :
    ExpenseRowState × Bool :=
  if row.status = "pending" ∨ row.status = "completed" then
    ({ row with
        status := "cancelled"
        cancelledAt := some t
        cancelledReason := reason
        updatedAt := t }, true)
  else (row, false)

/-! ## Expense ledger (§4.2): `addExpense` / `handleAddExpense` and the
period totals -/

/-- The client `FoodExpense` entity (fields the tracked claims read). -/
structure FoodExpense where
  id : String
  foodName : String
  amount : ℚ
  category : String
  mealType : String
  notes : Option String
  date : ℤ
  status : String
  transactionType : String
  isSplit : Bool
deriving DecidableEq, Repr

/-- The client-side ledger: the in-memory `expenses` collection plus the
log of remote inserts issued to the store. -/
structure LedgerState where
  expenses : List FoodExpense
  remoteInserts : List FoodExpense
deriving DecidableEq, Repr

/-- Outcome of `handleAddExpense`: the two `toast.error` validation
rejections, or the inserted expense. -/
inductive AddOutcome
  | invalidAmount
  | invalidDescription
  | added (e : FoodExpense)
deriving DecidableEq, Repr

/-- Embedding of the success path of `addExpense` (ExpenseTrackerSimple):
build `newExpense = { …expense, id: tempId }`, optimistically prepend it,
issue the remote insert, then on success map `e.id === tempId` entries to
`{ …e, id: data.id }` in place and return `{ …newExpense, id: data.id }`. -/
def addExpense (st : LedgerState) (e : FoodExpense) (tempId serverId : String) :
    LedgerState × FoodExpense :=
  let newExpense : FoodExpense := { e with id := tempId }
  let st₁ : LedgerState := { st with expenses := newExpense :: st.expenses }
  let st₂ : LedgerState := { st₁ with remoteInserts := st₁.remoteInserts ++ [newExpense] }
  let reconciled : List FoodExpense :=
    st₂.expenses.map (fun x => if x.id = tempId then { x with id := serverId } else x)
  let st₃ : LedgerState := { st₂ with expenses := reconciled }
  (st₃, { newExpense with id := serverId })

/-- Embedding of the form handler `handleAddExpense`:
`parseFloat(newExpense.amount)` is modelled by an `Option ℚ` (`none` for
NaN); `isNaN(amount) || amount <= 0` rejects with the invalid-amount
toast, `!newExpense.foodName.trim()` with the invalid-description toast,
and only then is `addExpense` called (with status `completed`, type
`expense`, no split). -/
def handleAddExpense (st : LedgerState) (amount : Option ℚ) (foodName : String)
    (category mealType notes : String) (today : ℤ) (tempId serverId : String) :
    LedgerState × AddOutcome :=
  match amount with
  | none => (st, .invalidAmount)
  | some a =>
    if a ≤ 0 then (st, .invalidAmount)
    else if foodName.trim = "" then (st, .invalidDescription)
    else
      let p := addExpense st
        { id := "", foodName := foodName.trim, amount := a, category := category,
          mealType := mealType,
          notes := if notes.trim = "" then none else some notes.trim,
          date := today, status := "completed", transactionType := "expense",
          isSplit := false } tempId serverId
      (p.1, .added p.2)

/-- JavaScript `toDateString()` equality modelled as equality of calendar
day indices (epoch milliseconds bucketed into days). -/
def dayKey (t : ℤ) : ℤ := t / 86400000

/-- `getTodayExpenses`: entries whose date falls on today's calendar day. -/
def getTodayExpenses (expenses : List FoodExpense) (today : ℤ) : List FoodExpense :=
  expenses.filter (fun e => dayKey e.date == dayKey today)

/-- `getTodayTotal`: sum of `amount` over today's entries — no status or
transaction-type filter. -/
def getTodayTotal (expenses : List FoodExpense) (today : ℤ) : ℚ :=
  ((getTodayExpenses expenses today).map (fun e => e.amount)).sum

/-- `getWeekExpenses`: entries with `date >= weekStart` (most recent
Sunday 00:00). -/
def getWeekExpenses (expenses : List FoodExpense) (weekStart : ℤ) : List FoodExpense :=
  expenses.filter (fun e => decide (weekStart ≤ e.date))

/-- `getWeekTotal`: sum of `amount` over the week's entries — no status
or transaction-type filter. -/
def getWeekTotal (expenses : List FoodExpense) (weekStart : ℤ) : ℚ :=
  ((getWeekExpenses expenses weekStart).map (fun e => e.amount)).sum

/-- `getMonthExpenses`: entries with `date >= monthStart` (day 1 of the
current month, 00:00). -/
def getMonthExpenses (expenses : List FoodExpense) (monthStart : ℤ) : List FoodExpense :=
  expenses.filter (fun e => decide (monthStart ≤ e.date))

/-- `getMonthTotal`: sum of `amount` over the month's entries — no status
or transaction-type filter. -/
def getMonthTotal (expenses : List FoodExpense) (monthStart : ℤ) : ℚ :=
  ((getMonthExpenses expenses monthStart).map (fun e => e.amount)).sum

/-- The `food_orders` row a client `FoodExpense` is persisted as (the
columns `get_budget_usage` reads). -/
def toRow (e : FoodExpense) : FoodOrderRow :=
  { amount := e.amount, orderDate := e.date, status := e.status,
    transactionType := e.transactionType }

/-! ## Concrete data used by witnesses and counterexamples -/

/-- A freshly placed demo order row. -/
def demoPlacedRow : OrderRow :=
  { status := "placed", placedAt := some 0, confirmedAt := none, preparingAt := none,
    readyAt := none, pickedUpAt := none, onTheWayAt := none, deliveredAt := none,
    cancelledAt := none, updatedAt := 0, rating := none }

/-- A database holding the placed demo order under id 1. -/
def dbPlaced : OrdersDb := { orders := [(1, demoPlacedRow)], history := [] }

/-- A delivered demo order row (delivered at instant 5). -/
def demoDeliveredRow : OrderRow :=
  { demoPlacedRow with status := "delivered", deliveredAt := some 5, updatedAt := 5 }

/-- A database holding the delivered demo order under id 2. -/
def dbDelivered : OrdersDb := { orders := [(2, demoDeliveredRow)], history := [] }

/-- A cancelled demo order row (cancelled at instant 5). -/
def demoCancelledRow : OrderRow :=
  { demoPlacedRow with status := "cancelled", cancelledAt := some 5, updatedAt := 5 }

/-- A database holding the cancelled demo order under id 3. -/
def dbCancelled : OrdersDb := { orders := [(3, demoCancelledRow)], history := [] }

/-- A database with no orders at all. -/
def dbEmpty : OrdersDb := { orders := [], history := [] }

/-- The delivered demo order after the (unguarded) `preparing` update. -/
def demoReopenedRow : OrderRow :=
  { demoDeliveredRow with status := "preparing", preparingAt := some 6, updatedAt := 6 }

/-- Results of the embedded SQL functions compare decidably. -/
instance : DecidableEq (Except SqlError (OrdersDb × Bool)) := fun a b =>
  match a, b with
  | .ok x, .ok y =>
      if h : x = y then isTrue (by rw [h])
      else isFalse (fun hh => h (by injection hh))
  | .error x, .error y =>
      if h : x = y then isTrue (by rw [h])
      else isFalse (fun hh => h (by injection hh))
  | .ok _, .error _ => isFalse (fun hh => by injection hh)
  | .error _, .ok _ => isFalse (fun hh => by injection hh)

/-- A completed expense of 7999.60 on day-instant 10: exactly 79.996 % of
a 10000 budget, which rounds to 80.00 while staying below 80. -/
def rowBoundary : FoodOrderRow :=
  { amount := 39998/5, orderDate := 10, status := "completed", transactionType := "expense" }

/-- A demo tracked order: confirmed, unrated, ETA at instant 150000 ms. -/
def demoTrackedOrder : TrackedOrder :=
  { status := "confirmed", rating := none, estimatedDeliveryTime := some 150000 }

/-- A pending expense row in the client collection. -/
def demoPendingExpense : FoodExpense :=
  { id := "e1", foodName := "Masala Dosa", amount := 50, category := "delivery",
    mealType := "lunch", notes := none, date := 100, status := "pending",
    transactionType := "expense", isSplit := false }

/-- A pending expense row state addressed by `cancel_expense`. -/
def demoPendingRowState : ExpenseRowState :=
  { amount := 50, status := "pending", cancelledAt := none, cancelledReason := none,
    updatedAt := 0 }

/-- An empty client ledger. -/
def ledger0 : LedgerState := { expenses := [], remoteInserts := [] }

end SavorSave

namespace SavorSave

/-! ## Helper lemmas -/

/-- The computable floor on ℚ agrees with the `Int.floor` of the
`FloorRing ℚ` instance. -/
lemma rat_floor_eq_intFloor (q : ℚ) : Rat.floor q = ⌊q⌋ := by
  rw [Rat.floor_def', Rat.floor_def]

/-- `splitExpenseEqually` with its local bindings expanded. -/
lemma splitExpenseEqually_eq (T : ℚ) (n : ℕ) :
    splitExpenseEqually T n = (List.range n).map (fun i =>
      { person := i + 1,
        amount := if i = 0
          then (Rat.floor (T / (n : ℚ) * 100) : ℚ) / 100
              + (T - (Rat.floor (T / (n : ℚ) * 100) : ℚ) / 100 * (n : ℚ))
          else (Rat.floor (T / (n : ℚ) * 100) : ℚ) / 100 }) := rfl

/-- Summing `n` equal base shares with the remainder folded into slot 0. -/
lemma sum_map_range_head (a r : ℚ) (n : ℕ) (hn : 1 ≤ n) :
    ((List.range n).map (fun i => if i = 0 then a + r else a)).sum = n * a + r := by
  induction n with
  | zero => exact absurd hn (by norm_num)
  | succ m ih =>
    rw [List.range_succ, List.map_append, List.sum_append]
    rcases Nat.eq_zero_or_pos m with hm | hm
    · subst hm
      simp
    · rw [ih hm]
      have hm0 : m ≠ 0 := Nat.pos_iff_ne_zero.mp hm
      simp [hm0]
      ring

/-- Looking the target id up after the UPDATE sees the transformed row. -/
lemma lookup_updatedOrders (orders : List (ℕ × OrderRow)) (oid : ℕ) (s : String)
    (t : ℤ) :
    lookupOrder (updatedOrders orders oid s t) oid
      = (lookupOrder orders oid).map (fun r => applyStatusTimestamps r s t) := by
  induction orders with
  | nil => rfl
  | cons p l ih =>
    rw [updatedOrders, List.map_cons]
    by_cases h : p.1 = oid
    · rw [if_pos h]
      rw [lookupOrder, lookupOrder, if_pos h, if_pos h]
      rfl
    · rw [if_neg h]
      rw [lookupOrder, lookupOrder, if_neg h, if_neg h]
      exact ih

/-- A successful lookup means the UPDATE's WHERE clause matches a row. -/
lemma any_key_of_lookup {l : List (ℕ × OrderRow)} {oid : ℕ} {r : OrderRow}
    (h : lookupOrder l oid = some r) : (l.any (fun p => p.1 = oid)) = true := by
  induction l with
  | nil => exact absurd h (by simp [lookupOrder])
  | cons p l ih =>
    rw [List.any_cons]
    by_cases hp : p.1 = oid
    · simp [hp]
    · rw [lookupOrder, if_neg hp] at h
      simp [hp, ih h]

/-- For every status that owns a timestamp column, the UPDATE's matching
`CASE WHEN` branch writes `now()` into that column — unconditionally,
whatever value it held before. -/
lemma statusTimestamp_apply_self (r : OrderRow) (s : String) (t : ℤ)
    (hs : s ∈ timestampedStatuses) :
    statusTimestamp (applyStatusTimestamps r s t) s = some t := by
  simp only [timestampedStatuses, List.mem_cons, List.not_mem_nil, or_false] at hs
  rcases hs with rfl | rfl | rfl | rfl | rfl | rfl | rfl <;> rfl

/-- A successful `update_order_status` call, unfolded. -/
lemma update_order_status_of_lookup (db : OrdersDb) (oid : ℕ) (s : String)
    (msg : Option String) (t : ℤ) (r : OrderRow)
    (hr : lookupOrder db.orders oid = some r) :
    update_order_status db oid s msg t =
      .ok ({ orders := updatedOrders db.orders oid s t,
             history := db.history ++
               [{ orderId := oid, status := s, message := msg, createdAt := t }] },
           true) := by
  rw [update_order_status, if_pos (any_key_of_lookup hr)]

/-! ## C1 — split conservation -/

/-- C1: for `totalAmount > 0` and `peopleCount ≥ 2`, `splitExpenseEqually`
returns `peopleCount` shares summing exactly to `totalAmount`; persons
2.. get `baseShare = floor(totalAmount / peopleCount * 100) / 100`,
person 1 gets `baseShare` plus the remainder, so person 1's share is ≥
every other share and the gap is below `peopleCount` cents. -/
theorem C1_split_conservation (totalAmount : ℚ) (people : ℕ)
    (hT : 0 < totalAmount) (hp : 2 ≤ people) :
    (splitExpenseEqually totalAmount people).length = people ∧
    ((splitExpenseEqually totalAmount people).map SplitShare.amount).sum = totalAmount ∧
    (∀ s ∈ splitExpenseEqually totalAmount people, 2 ≤ s.person →
      s.amount = (⌊totalAmount / (people : ℚ) * 100⌋ : ℚ) / 100) ∧
    (∀ s ∈ splitExpenseEqually totalAmount people, s.person = 1 →
      s.amount = (⌊totalAmount / (people : ℚ) * 100⌋ : ℚ) / 100
        + (totalAmount - (⌊totalAmount / (people : ℚ) * 100⌋ : ℚ) / 100 * (people : ℚ))) ∧
    (∀ s ∈ splitExpenseEqually totalAmount people,
      ∀ s₂ ∈ splitExpenseEqually totalAmount people, s.person = 1 →
      s₂.amount ≤ s.amount ∧ s.amount - s₂.amount < (people : ℚ) / 100) := by
  have hp0 : (0 : ℚ) < (people : ℚ) := by
    have : 0 < people := by omega
    exact_mod_cast this
  set q : ℚ := totalAmount / (people : ℚ) * 100 with hq_def
  set f : ℚ := (Rat.floor q : ℚ) with hf_def
  have hfl : f ≤ q := by
    rw [hf_def, rat_floor_eq_intFloor]
    exact Int.floor_le q
  have hfg : q - 1 < f := by
    rw [hf_def, rat_floor_eq_intFloor]
    exact Int.sub_one_lt_floor q
  have hqmul : q * (people : ℚ) = totalAmount * 100 := by
    rw [hq_def]
    field_simp
  set share : ℚ := f / 100 with hshare_def
  set remainder : ℚ := totalAmount - share * (people : ℚ) with hrem_def
  have hrem0 : 0 ≤ remainder := by
    rw [hrem_def, hshare_def]
    nlinarith
  have hremlt : remainder < (people : ℚ) / 100 := by
    rw [hrem_def, hshare_def]
    nlinarith
  have hmem : ∀ s ∈ splitExpenseEqually totalAmount people,
      s.amount = share + remainder ∨ s.amount = share := by
    intro s hs
    rw [splitExpenseEqually_eq] at hs
    obtain ⟨i, _, rfl⟩ := List.mem_map.mp hs
    by_cases hi : i = 0
    · left
      simp [hi, hshare_def, hrem_def, hf_def, hq_def]
    · right
      simp [hi, hshare_def, hf_def, hq_def]
  refine ⟨?_, ?_, ?_, ?_, ?_⟩
  · rw [splitExpenseEqually_eq, List.length_map, List.length_range]
  · rw [splitExpenseEqually_eq, List.map_map]
    rw [show (SplitShare.amount ∘ fun i =>
        ({ person := i + 1,
           amount := if i = 0
             then (Rat.floor (totalAmount / (people : ℚ) * 100) : ℚ) / 100
                 + (totalAmount
                   - (Rat.floor (totalAmount / (people : ℚ) * 100) : ℚ) / 100 * (people : ℚ))
             else (Rat.floor (totalAmount / (people : ℚ) * 100) : ℚ) / 100 } : SplitShare))
        = fun i => if i = 0 then share + remainder else share from rfl]
    rw [sum_map_range_head _ _ _ (by omega)]
    rw [hrem_def]
    ring
  · intro s hs hpers
    rw [splitExpenseEqually_eq] at hs
    obtain ⟨i, _, rfl⟩ := List.mem_map.mp hs
    have hi : i ≠ 0 := by
      intro h
      rw [h] at hpers
      simp at hpers
    simp only [hi, if_false]
    rw [rat_floor_eq_intFloor, hq_def]
  · intro s hs hpers
    rw [splitExpenseEqually_eq] at hs
    obtain ⟨i, _, rfl⟩ := List.mem_map.mp hs
    have hi : i = 0 := by
      simp only at hpers
      omega
    simp only [hi, if_true]
    rw [rat_floor_eq_intFloor, hq_def]
  · intro s hs s₂ hs₂ hpers
    have h1 : s.amount = share + remainder := by
      rw [splitExpenseEqually_eq] at hs
      obtain ⟨i, _, rfl⟩ := List.mem_map.mp hs
      have hi : i = 0 := by
        simp only at hpers
        omega
      simp [hi, hshare_def, hrem_def, hf_def, hq_def]
    rcases hmem s₂ hs₂ with h2 | h2
    · rw [h1, h2]
      refine ⟨le_rfl, ?_⟩
      rw [sub_self]
      positivity
    · rw [h1, h2]
      constructor
      · linarith
      · have heq : share + remainder - share = remainder := by ring
        rw [heq]
        exact hremlt

/-- C1 witness: `splitEqually(100, 3)` sums exactly to 100. -/
theorem C1_split_conservation_witness :
    ((splitExpenseEqually 100 3).map SplitShare.amount).sum = 100 :=
  (C1_split_conservation 100 3 (by norm_num) (by norm_num)).2.1

/-! ## C2 — transition idempotence claim -/

/-- C2 counterexample: re-entering `preparing` at instant 20 after first
entering it at instant 10 OVERWRITES `preparing_at` (10 becomes 20) —
each `CASE WHEN p_new_status = … THEN now()` has no not-already-set
guard — so the per-status timestamp is NOT left unchanged by the second
call.  Two history entries are appended, as the claim says. -/
theorem C2_counterexample :
    (lookupOrder (stepDb dbPlaced 1 "preparing" 10).orders 1).map OrderRow.preparingAt
      = some (some 10) ∧
    (lookupOrder (stepDb (stepDb dbPlaced 1 "preparing" 10) 1 "preparing" 20).orders 1).map
        OrderRow.preparingAt = some (some 20) ∧
    (some (some (20 : ℤ)) : Option (Option ℤ)) ≠ some (some (10 : ℤ)) ∧
    (stepDb (stepDb dbPlaced 1 "preparing" 10) 1 "preparing" 20).history.length = 2 := by
  decide

/-- C2 amended: for EVERY status `s` that owns a timestamp column
(confirmed, preparing, ready, picked_up, on_the_way, delivered,
cancelled — nearby/failed have none), applying `update_order_status`
twice in a row with `s` first sets that per-status timestamp to the
first call's time and then OVERWRITES it with the second call's time
(the value is not preserved: the matching `CASE WHEN` branch has no
not-already-set guard), while two history entries are appended (history
is not deduplicated). -/
theorem C2_same_status_twice (db : OrdersDb) (oid : ℕ) (r : OrderRow) (s : String)
    (msg₁ msg₂ : Option String) (t₁ t₂ : ℤ) (db₁ db₂ : OrdersDb) (b₁ b₂ : Bool)
    (hs : s ∈ timestampedStatuses)
    (hr : lookupOrder db.orders oid = some r)
    (h₁ : update_order_status db oid s msg₁ t₁ = .ok (db₁, b₁))
    (h₂ : update_order_status db₁ oid s msg₂ t₂ = .ok (db₂, b₂)) :
    (lookupOrder db₁.orders oid).map (fun row => statusTimestamp row s)
      = some (some t₁) ∧
    (lookupOrder db₂.orders oid).map (fun row => statusTimestamp row s)
      = some (some t₂) ∧
    db₂.history.length = db.history.length + 2 := by
  rw [update_order_status_of_lookup db oid s msg₁ t₁ r hr] at h₁
  injection h₁ with h₁'
  injection h₁' with hdb₁ hb₁
  subst hdb₁
  have hr₁ : lookupOrder (updatedOrders db.orders oid s t₁) oid
      = some (applyStatusTimestamps r s t₁) := by
    rw [lookup_updatedOrders, hr]
    rfl
  rw [update_order_status_of_lookup _ oid s msg₂ t₂ _ hr₁] at h₂
  injection h₂ with h₂'
  injection h₂' with hdb₂ hb₂
  subst hdb₂
  refine ⟨?_, ?_, ?_⟩
  · show (lookupOrder (updatedOrders db.orders oid s t₁) oid).map
        (fun row => statusTimestamp row s) = some (some t₁)
    rw [hr₁, Option.map_some', statusTimestamp_apply_self r s t₁ hs]
  · show (lookupOrder (updatedOrders (updatedOrders db.orders oid s t₁) oid
        s t₂) oid).map (fun row => statusTimestamp row s) = some (some t₂)
    rw [lookup_updatedOrders, hr₁]
    simp only [Option.map_some']
    rw [statusTimestamp_apply_self _ s t₂ hs]
  · simp

/-- C2 witness: the amended behaviour on the concrete placed order —
entering `preparing` at 10 then again at 20 sets `preparing_at` to 10
then overwrites it to 20, with two history rows. -/
theorem C2_same_status_twice_witness :
    (lookupOrder (stepDb dbPlaced 1 "preparing" 10).orders 1).map
        (fun row => statusTimestamp row "preparing") = some (some 10) ∧
    (lookupOrder (stepDb (stepDb dbPlaced 1 "preparing" 10) 1 "preparing" 20).orders 1).map
        (fun row => statusTimestamp row "preparing") = some (some 20) ∧
    (stepDb (stepDb dbPlaced 1 "preparing" 10) 1 "preparing" 20).history.length
      = dbPlaced.history.length + 2 :=
  C2_same_status_twice dbPlaced 1 demoPlacedRow "preparing" none none 10 20
    (stepDb dbPlaced 1 "preparing" 10)
    (stepDb (stepDb dbPlaced 1 "preparing" 10) 1 "preparing" 20)
    true true (by decide) (by decide) (by decide) (by decide)

/-! ## C3 — the success flag -/

/-- C3 counterexample: on a database with no matching order the claim
says `update_order_status` returns `false` (with the history entry still
appended); in fact `RETURN FOUND` reflects the history INSERT, and that
INSERT violates `order_status_history.order_id REFERENCES orders(id)`,
so the call aborts with a foreign-key error — it never returns `false`
and no history entry survives. -/
theorem C3_counterexample :
    update_order_status dbEmpty 1 "confirmed" none 0
      = .error .foreignKeyViolation := by
  decide

/-- C3 amended: a completed `update_order_status` call always returns
`true` (the flag reflects the history INSERT, which requires the order to
exist); when no matching order exists the call does not return `false` —
it raises a foreign-key violation and nothing is written. -/
theorem C3_found_flag (db : OrdersDb) (oid : ℕ) (s : String)
    (msg : Option String) (t : ℤ) :
    (∀ db₂ b, update_order_status db oid s msg t = .ok (db₂, b) →
      b = true ∧ (db.orders.any (fun p => p.1 = oid)) = true ∧
      db₂.history.length = db.history.length + 1) ∧
    ((db.orders.any (fun p => p.1 = oid)) = false →
      update_order_status db oid s msg t = .error .foreignKeyViolation) := by
  constructor
  · intro db₂ b h
    by_cases hc : (db.orders.any (fun p => p.1 = oid)) = true
    · rw [update_order_status, if_pos hc] at h
      injection h with h'
      injection h' with hdb hb
      subst hdb
      exact ⟨hb.symm, hc, by simp⟩
    · rw [update_order_status, if_neg hc] at h
      exact absurd h (by simp)
  · intro hc
    rw [update_order_status, if_neg (by rw [hc]; simp)]

/-- C3 witness: on the concrete placed order the call returns `true`,
the order existed, and exactly one history entry was appended. -/
theorem C3_found_flag_witness :
    true = true ∧ (dbPlaced.orders.any (fun p => p.1 = 1)) = true ∧
    (stepDb dbPlaced 1 "preparing" 10).history.length
      = dbPlaced.history.length + 1 :=
  (C3_found_flag dbPlaced 1 "preparing" none 10).1
    (stepDb dbPlaced 1 "preparing" 10) true (by decide)

/-! ## C4 — terminal immutability claim -/

/-- C4 counterexample: from the terminal status `delivered` a further
transition to the non-terminal `preparing` is ACCEPTED (the claim says it
is rejected); re-entering `delivered` OVERWRITES `delivered_at` (5
becomes 7) and re-entering `cancelled` on a cancelled order OVERWRITES
`cancelled_at` (5 becomes 9) — the claim says a set terminal timestamp
is never overwritten. -/
theorem C4_counterexample :
    update_order_status dbDelivered 2 "preparing" none 6
      = .ok ({ orders := [(2, demoReopenedRow)],
               history := [{ orderId := 2, status := "preparing", message := none, createdAt := 6 }] },
             true) ∧
    (lookupOrder (stepDb dbDelivered 2 "delivered" 7).orders 2).map OrderRow.deliveredAt
      = some (some 7) ∧
    (lookupOrder dbCancelled.orders 3).map OrderRow.cancelledAt = some (some 5) ∧
    (lookupOrder (stepDb dbCancelled 3 "cancelled" 9).orders 3).map OrderRow.cancelledAt
      = some (some 9) := by
  decide

/-- C4 amended: `update_order_status` enforces no terminal-state policy:
any transition on an existing order succeeds (returns `true`) and sets
the status, even from `delivered`/`cancelled`; the terminal timestamps
are preserved by transitions to OTHER statuses but are overwritten when
the same terminal status is applied again. -/
theorem C4_terminal_not_enforced (db : OrdersDb) (oid : ℕ) (r : OrderRow)
    (s : String) (msg : Option String) (t : ℤ)
    (hr : lookupOrder db.orders oid = some r) :
    update_order_status db oid s msg t =
      .ok ({ orders := updatedOrders db.orders oid s t,
             history := db.history ++
               [{ orderId := oid, status := s, message := msg, createdAt := t }] },
           true) ∧
    (lookupOrder (updatedOrders db.orders oid s t) oid).map OrderRow.status = some s ∧
    (s ≠ "delivered" →
      (lookupOrder (updatedOrders db.orders oid s t) oid).map OrderRow.deliveredAt
        = some r.deliveredAt) ∧
    (s ≠ "cancelled" →
      (lookupOrder (updatedOrders db.orders oid s t) oid).map OrderRow.cancelledAt
        = some r.cancelledAt) ∧
    (s = "delivered" →
      (lookupOrder (updatedOrders db.orders oid s t) oid).map OrderRow.deliveredAt
        = some (some t)) ∧
    (s = "cancelled" →
      (lookupOrder (updatedOrders db.orders oid s t) oid).map OrderRow.cancelledAt
        = some (some t)) := by
  refine ⟨update_order_status_of_lookup db oid s msg t r hr, ?_, ?_, ?_, ?_, ?_⟩
  · rw [lookup_updatedOrders, hr]
    simp [applyStatusTimestamps]
  · intro hs
    rw [lookup_updatedOrders, hr]
    simp [applyStatusTimestamps, hs]
  · intro hs
    rw [lookup_updatedOrders, hr]
    simp [applyStatusTimestamps, hs]
  · intro hs
    rw [lookup_updatedOrders, hr]
    simp [applyStatusTimestamps, hs]
  · intro hs
    rw [lookup_updatedOrders, hr]
    simp [applyStatusTimestamps, hs]

/-- C4 witness: the amended behaviour on the concrete delivered order —
the `preparing` transition is accepted and keeps `delivered_at = 5`. -/
theorem C4_terminal_not_enforced_witness :
    update_order_status dbDelivered 2 "preparing" none 6 =
      .ok ({ orders := updatedOrders dbDelivered.orders 2 "preparing" 6,
             history := dbDelivered.history ++
               [{ orderId := 2, status := "preparing", message := none, createdAt := 6 }] },
           true) ∧
    (lookupOrder (updatedOrders dbDelivered.orders 2 "preparing" 6) 2).map
        OrderRow.status = some "preparing" ∧
    ("preparing" ≠ "delivered" →
      (lookupOrder (updatedOrders dbDelivered.orders 2 "preparing" 6) 2).map
        OrderRow.deliveredAt = some demoDeliveredRow.deliveredAt) ∧
    ("preparing" ≠ "cancelled" →
      (lookupOrder (updatedOrders dbDelivered.orders 2 "preparing" 6) 2).map
        OrderRow.cancelledAt = some demoDeliveredRow.cancelledAt) ∧
    ("preparing" = "delivered" →
      (lookupOrder (updatedOrders dbDelivered.orders 2 "preparing" 6) 2).map
        OrderRow.deliveredAt = some (some 6)) ∧
    ("preparing" = "cancelled" →
      (lookupOrder (updatedOrders dbDelivered.orders 2 "preparing" 6) 2).map
        OrderRow.cancelledAt = some (some 6)) :=
  C4_terminal_not_enforced dbDelivered 2 demoDeliveredRow "preparing" none 6
    (by decide)

/-! ## C5 — budget usage and the alert boundary -/

/-- Rounding half away from zero at two decimals is monotone. -/
lemma pgRound2_mono {x y : ℚ} (h : x ≤ y) : pgRound2 x ≤ pgRound2 y := by
  rw [pgRound2, pgRound2, rat_floor_eq_intFloor, rat_floor_eq_intFloor]
  have hfl : ⌊x * 100 + 1/2⌋ ≤ ⌊y * 100 + 1/2⌋ := Int.floor_le_floor (by linarith)
  have hc : ((⌊x * 100 + 1/2⌋ : ℤ) : ℚ) ≤ ((⌊y * 100 + 1/2⌋ : ℤ) : ℚ) :=
    Int.cast_le.mpr hfl
  linarith

/-- C5 counterexample: with budget 10000, threshold 80 and completed
expenses of 7999.60, the reported `percentage_used` is the rounded 80.00,
which meets the threshold, yet `should_alert` is `false` because the SQL
comparison uses the unrounded 79.996 — refuting "shouldAlert = true
exactly when percentageUsed ≥ alertThreshold". -/
theorem C5_counterexample :
    (get_budget_usage [rowBoundary] 0 10000 80).percentageUsed = some 80 ∧
    (get_budget_usage [rowBoundary] 0 10000 80).shouldAlert = some false ∧
    ((80 : ℚ) ≤ 80) := by
  refine ⟨?_, ?_, le_rfl⟩
  · show (if (10000 : ℚ) = 0 then none
        else some (pgRound2 (periodSpent [rowBoundary] 0 / 10000 * 100))) = some 80
    rw [if_neg (by norm_num)]
    have hs : periodSpent [rowBoundary] 0 = 39998/5 := by
      simp [periodSpent, rowBoundary]
    rw [hs]
    rw [show (39998 / 5 : ℚ) / 10000 * 100 = 39998/500 by norm_num]
    rw [pgRound2, show (39998 / 500 : ℚ) * 100 + 1/2 = 80001/10 by norm_num]
    rw [show Rat.floor (80001/10 : ℚ) = 8000 from by
      rw [rat_floor_eq_intFloor, Int.floor_eq_iff]
      norm_num]
    norm_num
  · show (if (10000 : ℚ) = 0 then none
        else some (decide ((80 : ℚ) ≤ periodSpent [rowBoundary] 0 / 10000 * 100)))
        = some false
    rw [if_neg (by norm_num)]
    have hs : periodSpent [rowBoundary] 0 = 39998/5 := by
      simp [periodSpent, rowBoundary]
    rw [hs]
    simp only [Option.some.injEq, decide_eq_false_iff_not, not_le]
    norm_num

/-- C5 amended: `percentage_used` is the rounded ratio and is
non-decreasing in the spent amount, and the zero-budget case yields NULL
(no alert, no division error); but `should_alert` is computed from the
UNROUNDED ratio `totalSpent / budgetLimit * 100 ≥ alertThreshold`, which
can disagree with `percentageUsed ≥ alertThreshold` at the boundary. -/
theorem C5_budget_usage (rows₁ rows₂ : List FoodOrderRow) (ps : ℤ) (b thr : ℚ)
    (hb : 0 < b) (hmono : periodSpent rows₁ ps ≤ periodSpent rows₂ ps) :
    (get_budget_usage rows₁ ps b thr).percentageUsed
      = some (pgRound2 (periodSpent rows₁ ps / b * 100)) ∧
    ((get_budget_usage rows₁ ps b thr).shouldAlert = some true ↔
      thr ≤ periodSpent rows₁ ps / b * 100) ∧
    (∀ p₁ p₂, (get_budget_usage rows₁ ps b thr).percentageUsed = some p₁ →
      (get_budget_usage rows₂ ps b thr).percentageUsed = some p₂ → p₁ ≤ p₂) ∧
    (get_budget_usage rows₁ ps 0 thr).shouldAlert = none := by
  have hb0 : b ≠ 0 := ne_of_gt hb
  refine ⟨?_, ?_, ?_, ?_⟩
  · simp [get_budget_usage, hb0]
  · simp [get_budget_usage, hb0]
  · intro p₁ p₂ h₁ h₂
    simp only [get_budget_usage, hb0, if_false, Option.some.injEq] at h₁ h₂
    rw [← h₁, ← h₂]
    apply pgRound2_mono
    have hdiv : periodSpent rows₁ ps / b ≤ periodSpent rows₂ ps / b := by
      gcongr
    linarith
  · simp [get_budget_usage]

/-- C5 witness: the amended statement at budget 10000, threshold 80, no
spend versus the 7999.60 boundary spend. -/
theorem C5_budget_usage_witness :
    (get_budget_usage [] 0 10000 80).percentageUsed
      = some (pgRound2 (periodSpent [] 0 / 10000 * 100)) ∧
    ((get_budget_usage [] 0 10000 80).shouldAlert = some true ↔
      (80 : ℚ) ≤ periodSpent [] 0 / 10000 * 100) ∧
    (∀ p₁ p₂, (get_budget_usage [] 0 10000 80).percentageUsed = some p₁ →
      (get_budget_usage [rowBoundary] 0 10000 80).percentageUsed = some p₂ →
      p₁ ≤ p₂) ∧
    (get_budget_usage [] 0 0 80).shouldAlert = none :=
  C5_budget_usage [] [rowBoundary] 0 10000 80 (by norm_num)
    (by simp [periodSpent, rowBoundary]; norm_num)

/-! ## C6 — deriving the tracking state -/

/-- `Math.ceil` agrees with `Int.ceil` on ℚ. -/
lemma jsMathCeil_eq_ceil (q : ℚ) : jsMathCeil q = ⌈q⌉ := by
  rw [jsMathCeil, rat_floor_eq_intFloor, Int.floor_neg, neg_neg]

/-- C6: `getOrderTrackingState` is pure and returns
`progressPercentage = (indexOf(status, sequence) + 1) / 8 × 100` over the
8-element sequence (−1 for cancelled/failed), `canCancel` exactly on
placed/confirmed, `canRate` exactly on an unrated delivered order, and
`estimatedTime = max(0, ceil((eta − now) / 60 s))` exactly when an ETA is
set and the status is not delivered, `none` otherwise. -/
theorem C6_tracking_state (order : TrackedOrder) (hist : List HistoryEntry)
    (now : ℤ) (hrating : ∀ rr, order.rating = some rr → 1 ≤ rr) :
    (getOrderTrackingState order hist now).progressPercentage
      = ((jsIndexOf statusOrder order.status : ℚ) + 1) / 8 * 100 ∧
    ((getOrderTrackingState order hist now).canCancel = true ↔
      (order.status = "placed" ∨ order.status = "confirmed")) ∧
    ((getOrderTrackingState order hist now).canRate = true ↔
      (order.status = "delivered" ∧ order.rating = none)) ∧
    (∀ edt, order.estimatedDeliveryTime = some edt → order.status ≠ "delivered" →
      (getOrderTrackingState order hist now).estimatedTime
        = some (max 0 ⌈((edt - now : ℤ) : ℚ) / (60 * 1000)⌉)) ∧
    ((order.estimatedDeliveryTime = none ∨ order.status = "delivered") →
      (getOrderTrackingState order hist now).estimatedTime = none) := by
  refine ⟨?_, ?_, ?_, ?_, ?_⟩
  · show ((jsIndexOf statusOrder order.status : ℚ) + 1)
        / (statusOrder.length : ℚ) * 100 = _
    norm_num [statusOrder]
  · show (order.status == "placed" || order.status == "confirmed") = true ↔ _
    simp [Bool.or_eq_true, beq_iff_eq]
  · show (order.status == "delivered" && (order.rating.getD 0 == 0)) = true ↔ _
    simp only [Bool.and_eq_true, beq_iff_eq]
    constructor
    · rintro ⟨h1, h2⟩
      refine ⟨h1, ?_⟩
      cases hr : order.rating with
      | none => rfl
      | some rr =>
        rw [hr] at h2
        simp only [Option.getD_some] at h2
        have h1le := hrating rr hr
        omega
    · rintro ⟨h1, h2⟩
      simp [h1, h2]
  · intro edt hedt hstat
    show (match order.estimatedDeliveryTime with
      | some edt =>
          if order.status ≠ "delivered"
          then some (max 0 (jsMathCeil (((edt - now : ℤ) : ℚ) / 60000)))
          else none
      | none => none) = _
    rw [hedt]
    simp only [hstat, ne_eq, not_false_iff, if_true, jsMathCeil_eq_ceil]
    norm_num
  · intro hcase
    show (match order.estimatedDeliveryTime with
      | some edt =>
          if order.status ≠ "delivered"
          then some (max 0 (jsMathCeil (((edt - now : ℤ) : ℚ) / 60000)))
          else none
      | none => none) = none
    rcases hcase with hnone | hdel
    · rw [hnone]
    · cases hedt : order.estimatedDeliveryTime with
      | none => rfl
      | some edt => simp [hdel]

/-- C6 witness: the confirmed demo order with a 150-second ETA, 0 ms now:
progress 25 %, cancellable, not ratable, ETA ceil(150000/60000) = 3 min. -/
theorem C6_tracking_state_witness :
    (getOrderTrackingState demoTrackedOrder [] 0).progressPercentage
      = ((jsIndexOf statusOrder demoTrackedOrder.status : ℚ) + 1) / 8 * 100 ∧
    ((getOrderTrackingState demoTrackedOrder [] 0).canCancel = true ↔
      (demoTrackedOrder.status = "placed" ∨ demoTrackedOrder.status = "confirmed")) ∧
    ((getOrderTrackingState demoTrackedOrder [] 0).canRate = true ↔
      (demoTrackedOrder.status = "delivered" ∧ demoTrackedOrder.rating = none)) ∧
    (∀ edt, demoTrackedOrder.estimatedDeliveryTime = some edt →
      demoTrackedOrder.status ≠ "delivered" →
      (getOrderTrackingState demoTrackedOrder [] 0).estimatedTime
        = some (max 0 ⌈((edt - 0 : ℤ) : ℚ) / (60 * 1000)⌉)) ∧
    ((demoTrackedOrder.estimatedDeliveryTime = none ∨
      demoTrackedOrder.status = "delivered") →
      (getOrderTrackingState demoTrackedOrder [] 0).estimatedTime = none) :=
  C6_tracking_state demoTrackedOrder [] 0 (fun rr h => by simp [demoTrackedOrder] at h)

/-! ## C7 — cancelling an expense -/

/-- C7: `cancel_expense` succeeds exactly when the status is pending or
completed, in which case it sets status `cancelled`, `cancelled_at` to
now, `cancelled_reason` to the given reason (amount untouched) and
returns true; on an already failed or cancelled expense it returns false
and leaves the row entirely unchanged. -/
theorem C7_cancel_expense (row : ExpenseRowState) (reason : Option String) (t : ℤ) :
    ((cancel_expense row reason t).2 = true ↔
      (row.status = "pending" ∨ row.status = "completed")) ∧
    ((row.status = "pending" ∨ row.status = "completed") →
      (cancel_expense row reason t).1.status = "cancelled" ∧
      (cancel_expense row reason t).1.cancelledAt = some t ∧
      (cancel_expense row reason t).1.cancelledReason = reason ∧
      (cancel_expense row reason t).1.amount = row.amount) ∧
    ((row.status = "failed" ∨ row.status = "cancelled") →
      cancel_expense row reason t = (row, false)) := by
  by_cases h : row.status = "pending" ∨ row.status = "completed"
  · refine ⟨?_, ?_, ?_⟩
    · simp [cancel_expense, h]
    · intro _
      simp [cancel_expense, h]
    · intro hfc
      rcases h with h | h <;> rcases hfc with hfc | hfc <;> rw [h] at hfc <;> simp at hfc
  · refine ⟨?_, ?_, ?_⟩
    · simp [cancel_expense, h]
    · intro hh
      exact absurd hh h
    · intro _
      simp [cancel_expense, h]

/-- C7 witness: cancelling the pending demo expense at instant 7 succeeds
and stamps the cancellation fields. -/
theorem C7_cancel_expense_witness :
    ((cancel_expense demoPendingRowState (some "dup") 7).2 = true ↔
      (demoPendingRowState.status = "pending" ∨
       demoPendingRowState.status = "completed")) ∧
    ((demoPendingRowState.status = "pending" ∨
      demoPendingRowState.status = "completed") →
      (cancel_expense demoPendingRowState (some "dup") 7).1.status = "cancelled" ∧
      (cancel_expense demoPendingRowState (some "dup") 7).1.cancelledAt = some 7 ∧
      (cancel_expense demoPendingRowState (some "dup") 7).1.cancelledReason
        = some "dup" ∧
      (cancel_expense demoPendingRowState (some "dup") 7).1.amount
        = demoPendingRowState.amount) ∧
    ((demoPendingRowState.status = "failed" ∨
      demoPendingRowState.status = "cancelled") →
      cancel_expense demoPendingRowState (some "dup") 7 = (demoPendingRowState, false)) :=
  C7_cancel_expense demoPendingRowState (some "dup") 7

/-! ## C8 — validation before any mutation -/

/-- C8: a request with a non-positive (or unparseable) amount or an empty
description (empty once trimmed, as the handler tests) is rejected by
`handleAddExpense` with a validation error
before any mutation: the ledger state — both the local collection and the
issued remote inserts — is returned unchanged, so validation errors never
reach the network. -/
theorem C8_validation (st : LedgerState) (amount : Option ℚ)
    (fn cat mt notes : String) (today : ℤ) (tempId serverId : String)
    (h : (∀ a, amount = some a → a ≤ 0) ∨ fn.trim = "") :
    (handleAddExpense st amount fn cat mt notes today tempId serverId).1 = st ∧
    ((handleAddExpense st amount fn cat mt notes today tempId serverId).2
        = .invalidAmount ∨
     (handleAddExpense st amount fn cat mt notes today tempId serverId).2
        = .invalidDescription) := by
  cases amount with
  | none => exact ⟨rfl, Or.inl rfl⟩
  | some a =>
    by_cases ha : a ≤ 0
    · refine ⟨?_, Or.inl ?_⟩
      · simp [handleAddExpense, ha]
      · simp [handleAddExpense, ha]
    · rcases h with h | h
      · exact absurd (h a rfl) ha
      · refine ⟨?_, Or.inr ?_⟩
        · simp [handleAddExpense, ha, h]
        · simp [handleAddExpense, ha, h]

/-- C8 witness: an amount of −5 on an empty ledger is rejected with the
invalid-amount outcome and no state change. -/
theorem C8_validation_witness :
    (handleAddExpense ledger0 (some (-5)) "Pizza" "delivery" "lunch" "" 0
        "t1" "s1").1 = ledger0 ∧
    ((handleAddExpense ledger0 (some (-5)) "Pizza" "delivery" "lunch" "" 0
        "t1" "s1").2 = .invalidAmount ∨
     (handleAddExpense ledger0 (some (-5)) "Pizza" "delivery" "lunch" "" 0
        "t1" "s1").2 = .invalidDescription) :=
  C8_validation ledger0 (some (-5)) "Pizza" "delivery" "lunch" "" 0 "t1" "s1"
    (Or.inl (fun a ha => by
      injection ha with ha
      rw [← ha]
      norm_num))

/-! ## C9 — identity reconciliation is a pure id swap -/

/-- Entries whose id is not the temporary one pass through the
reconciliation map unchanged. -/
lemma map_reconcile_of_fresh (l : List FoodExpense) (tempId serverId : String)
    (h : ∀ x ∈ l, x.id ≠ tempId) :
    l.map (fun x => if x.id = tempId then { x with id := serverId } else x) = l := by
  induction l with
  | nil => rfl
  | cons e l ih =>
    rw [List.map_cons, if_neg (h e (by simp)), ih (fun x hx => h x (by simp [hx]))]

/-- C9: when the temporary id is fresh, the successful add-then-reconcile
round trip leaves the collection with the entry at the head (its
optimistic position) carrying the server id and every other field of the
input expense, the rest of the collection untouched; the returned value
is that same entry, and the remote insert carried the temporary id. -/
theorem C9_reconcile (st : LedgerState) (e : FoodExpense) (tempId serverId : String)
    (hfresh : ∀ x ∈ st.expenses, x.id ≠ tempId) :
    (addExpense st e tempId serverId).1.expenses
      = { e with id := serverId } :: st.expenses ∧
    (addExpense st e tempId serverId).2 = { e with id := serverId } ∧
    (addExpense st e tempId serverId).1.remoteInserts
      = st.remoteInserts ++ [{ e with id := tempId }] := by
  refine ⟨?_, rfl, rfl⟩
  show ({ e with id := tempId } :: st.expenses).map
      (fun x => if x.id = tempId then { x with id := serverId } else x)
    = { e with id := serverId } :: st.expenses
  rw [List.map_cons, if_pos rfl,
    map_reconcile_of_fresh st.expenses tempId serverId hfresh]

/-- C9 witness: the round trip on the empty ledger with fresh ids. -/
theorem C9_reconcile_witness :
    (addExpense ledger0 demoPendingExpense "t1" "s1").1.expenses
      = { demoPendingExpense with id := "s1" } :: ledger0.expenses ∧
    (addExpense ledger0 demoPendingExpense "t1" "s1").2
      = { demoPendingExpense with id := "s1" } ∧
    (addExpense ledger0 demoPendingExpense "t1" "s1").1.remoteInserts
      = ledger0.remoteInserts ++ [{ demoPendingExpense with id := "t1" }] :=
  C9_reconcile ledger0 demoPendingExpense "t1" "s1" (fun x hx => by simp [ledger0] at hx)

/-! ## C10 — period totals versus the budget monitor's spend -/

/-- C10: the client period totals (`getTodayTotal` / `getWeekTotal` /
`getMonthTotal`) count every in-window entry's amount regardless of its
status or transaction type — a pending / failed / cancelled / income
entry contributes in full — while the budget monitor's `totalSpent`
(`get_budget_usage`) skips any entry that is not a completed expense, so
the two sums disagree on such data. -/
theorem C10_totals_vs_budget (l : List FoodExpense) (e : FoodExpense)
    (today weekStart monthStart : ℤ)
    (hday : dayKey e.date = dayKey today)
    (hweek : weekStart ≤ e.date) (hmonth : monthStart ≤ e.date)
    (hskip : ¬(e.status = "completed" ∧ e.transactionType = "expense")) :
    getTodayTotal (e :: l) today = e.amount + getTodayTotal l today ∧
    getWeekTotal (e :: l) weekStart = e.amount + getWeekTotal l weekStart ∧
    getMonthTotal (e :: l) monthStart = e.amount + getMonthTotal l monthStart ∧
    periodSpent ((e :: l).map toRow) monthStart
      = periodSpent (l.map toRow) monthStart ∧
    (l = [] → e.amount ≠ 0 →
      getMonthTotal (e :: l) monthStart
        ≠ periodSpent ((e :: l).map toRow) monthStart) := by
  have htoday : getTodayTotal (e :: l) today = e.amount + getTodayTotal l today := by
    rw [getTodayTotal, getTodayExpenses,
      List.filter_cons_of_pos (by simp [hday]), List.map_cons, List.sum_cons]
    rfl
  have hweekT : getWeekTotal (e :: l) weekStart
      = e.amount + getWeekTotal l weekStart := by
    rw [getWeekTotal, getWeekExpenses,
      List.filter_cons_of_pos (by simp [hweek]), List.map_cons, List.sum_cons]
    rfl
  have hmonthT : getMonthTotal (e :: l) monthStart
      = e.amount + getMonthTotal l monthStart := by
    rw [getMonthTotal, getMonthExpenses,
      List.filter_cons_of_pos (by simp [hmonth]), List.map_cons, List.sum_cons]
    rfl
  have hspent : periodSpent ((e :: l).map toRow) monthStart
      = periodSpent (l.map toRow) monthStart := by
    rw [List.map_cons, periodSpent, List.filter_cons_of_neg, ← periodSpent]
    simp only [toRow, Bool.and_eq_true, beq_iff_eq, decide_eq_true_iff, not_and]
    intro hh
    exact absurd ⟨hh.1, hh.2⟩ hskip
  refine ⟨htoday, hweekT, hmonthT, hspent, ?_⟩
  intro hl hamount
  subst hl
  rw [hmonthT, hspent]
  show e.amount + 0 ≠ 0
  simpa using hamount

/-- C10 witness: one pending expense of 50 inside every window — the
client totals all report 50 while the budget monitor's spend is 0. -/
theorem C10_totals_vs_budget_witness :
    getTodayTotal [demoPendingExpense] 100
      = demoPendingExpense.amount + getTodayTotal [] 100 ∧
    getWeekTotal [demoPendingExpense] 0
      = demoPendingExpense.amount + getWeekTotal [] 0 ∧
    getMonthTotal [demoPendingExpense] 0
      = demoPendingExpense.amount + getMonthTotal [] 0 ∧
    periodSpent ([demoPendingExpense].map toRow) 0
      = periodSpent (([] : List FoodExpense).map toRow) 0 ∧
    (([] : List FoodExpense) = [] → demoPendingExpense.amount ≠ 0 →
      getMonthTotal [demoPendingExpense] 0
        ≠ periodSpent ([demoPendingExpense].map toRow) 0) :=
  C10_totals_vs_budget [] demoPendingExpense 100 0 0 (by decide) (by decide)
    (by decide) (by decide)

end SavorSave
